import Mathlib

/-
Verification development for the MidasNet model definition
(dpt/midas_net.py): a shallow embedding of the configuration
handling of the constructor and of the dataflow graph of forward,
with theorems about the properties of both.

Conventions of the embedding:
  - Python dictionary values that occur in the blocks configuration are
    modelled by the inductive type Val; Python equality (==) between such
    values is modelled by pyEq, including the bool/number cross-equality
    of Python (True == 1).
  - Python exceptions relevant to this module (KeyError on a missing
    dictionary key, NameError on an undefined identifier / unbound local)
    are modelled by PyErr; fallible steps return Except PyErr.
  - Tensors are left abstract: the forward pass is embedded generically
    over an environment of primitive operations (backbone stages,
    projections, fusion blocks, the output head, interpolation, squeeze),
    each of which may fail.  Instantiating the environment with a free
    syntactic algebra (Texpr) recovers the symbolic dataflow graph that
    forward builds, and the pass also records the list of primitive
    operations it attempts, in execution order.
  - Shapes of the depth output head (the only head whose layers are fully
    given in this file of the repository) are computed by a shape calculus
    over lists of dimension sizes, with the standard conv2d / bilinear
    interpolation / squeeze shape rules of the numerical library.
-/

namespace MidasNet

/-- A Python value that can occur in the blocks configuration mapping. -/
inductive Val where
  | none
  | bool (b : Bool)
  | num (q : ℚ)
  | str (s : String)
  | list (l : List ℤ)
deriving DecidableEq

/-- Python equality (==) restricted to the values of Val.  Python treats
True as equal to 1 and False as equal to 0, including for floats. -/
def pyEq : Val → Val → Bool
  | Val.none, Val.none => true
  | Val.bool a, Val.bool b => a == b
  | Val.bool a, Val.num q => (if a then (1 : ℚ) else 0) == q
  | Val.num q, Val.bool a => q == (if a then (1 : ℚ) else 0)
  | Val.num a, Val.num b => a == b
  | Val.str a, Val.str b => a == b
  | Val.list a, Val.list b => a == b
  | _, _ => false

/-- The blocks configuration mapping, as an association list with the
first binding of a key the authoritative one (Python dict keys are
unique, so any association list with distinct keys is faithful). -/
def Blocks : Type := List (String × Val)

/-- Dictionary lookup: some v when the key is present (Python d[k]),
none when absent (Python raises KeyError; "k in d" is isSome). -/
def lookupB : Blocks → String → Option Val
  | [], _ => none
  | (k2, v) :: rest, k => if k2 = k then some v else lookupB rest k

/-- The Python exceptions this module can raise itself. -/
inductive PyErr where
  | keyError (k : String)
  | nameError (n : String)
deriving DecidableEq

/-- The activation submodule selected at construction
(midas_net.py lines 101-113).  The "mish" and "hard_mish" branches
reference the undefined names Mish / HardMish and so never produce an
activation; the remaining outcomes are these three. -/
inductive Act where
  | leaky
  | relu
  | identity
deriving DecidableEq

/-- Which output head was installed at construction
(midas_net.py lines 147-208). -/
inductive Head where
  | depth
  | wide
  | wideHR
  | standard
deriving DecidableEq

/-- The two attribute tests forward makes on the encoder returned by
_make_encoder: hasattr(self.pretrained, "model") and
hasattr(self.pretrained.model, "patch_size") (midas_net.py lines 247-248). -/
structure Backbone where
  hasModelAttr : Bool
  modelHasPatchSize : Bool
deriving DecidableEq

/-- The state of a constructed MidasNet that the forward pass reads. -/
structure Model where
  channelsLast : Bool
  monodepth : Bool
  features : Nat
  numClasses : Nat
  nonNegative : Bool
  bn : Bool
  freezeBn : Bool
  hooks : Option Val
  useReadout : Val
  scale : Val
  shift : Val
  activation : Act
  head : Head
  hasAux : Bool
  hasModelAttr : Bool
  modelHasPatchSize : Bool
deriving DecidableEq

/-- Activation selection, midas_net.py lines 101-113: an absent
"activation" key is first replaced by None, then the if/elif chain runs;
"mish" and "hard_mish" name the undefined identifiers Mish and HardMish
(a NameError at evaluation), and any value other than "leaky" and "relu"
falls through to nn.Identity(). -/
def selectActivation (blocks : Blocks) : Except PyErr Act :=
  let v := (lookupB blocks "activation").getD Val.none
  if pyEq v (Val.str "mish") then Except.error (PyErr.nameError "Mish")
  else if pyEq v (Val.str "hard_mish") then Except.error (PyErr.nameError "HardMish")
  else if pyEq v (Val.str "leaky") then Except.ok Act.leaky
  else if pyEq v (Val.str "relu") then Except.ok Act.relu
  else Except.ok Act.identity

/-- Output-head selection, midas_net.py lines 147-208: depth mode takes
the monodepth head; otherwise blocks["widehead"] is read unguarded
(KeyError when absent), and when it is not True, blocks["widehead_hr"]
is read unguarded as well (KeyError when absent). -/
def selectHead (monodepth : Bool) (blocks : Blocks) : Except PyErr Head :=
  if monodepth then Except.ok Head.depth
  else
    match lookupB blocks "widehead" with
    | Option.none => Except.error (PyErr.keyError "widehead")
    | Option.some v =>
      if pyEq v (Val.bool true) then Except.ok Head.wide
      else
        match lookupB blocks "widehead_hr" with
        | Option.none => Except.error (PyErr.keyError "widehead_hr")
        | Option.some v2 =>
          if pyEq v2 (Val.bool true) then Except.ok Head.wideHR
          else Except.ok Head.standard

/-- The guard of midas_net.py line 210:
"aux" in self.blocks and self.blocks["aux"] == True. -/
def auxEnabled (blocks : Blocks) : Bool :=
  match lookupB blocks "aux" with
  | Option.some v => pyEq v (Val.bool true)
  | Option.none => false

/-- MidasNet.__init__ (midas_net.py lines 23-232), restricted to the
state the forward pass and the claims read.  Field initialisations
follow the source: every guarded read ("k" in blocks, then blocks[k])
becomes an Option match with the stated default; self.expand is the
constant False (line 68) and the "expand" key is never read; the
activation chain runs before head selection, which runs before the
auxiliary-head branch; the auxiliary branch (lines 210-217) references
the undefined name features2 and so raises NameError whenever it is
taken, hence a successfully constructed model never owns an auxlayer.
Weight loading (self.load) and the freeze_bn module walk mutate only
training state and are not modelled beyond the freezeBn flag. -/
def construct (bk : Backbone) (features numClasses : Nat)
    (monodepth nonNegative channelsLast : Bool) (blocks : Blocks) :
    Except PyErr Model :=
  match selectActivation blocks with
  | Except.error e => Except.error e
  | Except.ok act =>
    match selectHead monodepth blocks with
    | Except.error e => Except.error e
    | Except.ok head =>
      if auxEnabled blocks then Except.error (PyErr.nameError "features2")
      else Except.ok
        { channelsLast := channelsLast
          monodepth := monodepth
          features := features
          numClasses := numClasses
          nonNegative := nonNegative
          bn :=
            match lookupB blocks "batch_norm" with
            | Option.some v => pyEq v (Val.bool true)
            | Option.none => false
          freezeBn :=
            match lookupB blocks "freeze_bn" with
            | Option.some v => !(pyEq v (Val.bool false))
            | Option.none => true
          hooks := lookupB blocks "hooks"
          useReadout := (lookupB blocks "use_readout").getD (Val.str "ignore")
          scale := (lookupB blocks "scale").getD (Val.num 1)
          shift := (lookupB blocks "shift").getD (Val.num 0)
          activation := act
          head := head
          hasAux := false
          hasModelAttr := bk.hasModelAttr
          modelHasPatchSize := bk.modelHasPatchSize }

/-- The default value of the blocks keyword argument
(midas_net.py lines 34-45). -/
def defaultBlocks : Blocks :=
  [("activation", Val.str "relu"), ("batch_norm", Val.bool false),
   ("freeze_bn", Val.bool true), ("expand", Val.bool false),
   ("hooks", Val.list [0, 1, 8, 11]), ("use_readout", Val.str "project"),
   ("aux", Val.none), ("widehead", Val.bool false),
   ("scale", Val.num 1), ("shift", Val.num 0)]

/-- The configuration keys the constructor ever reads from blocks
(the "expand" key of the documented list is never read: self.expand is
hard-coded False at line 68). -/
def usedKeys : List String :=
  ["activation", "batch_norm", "freeze_bn", "expand", "hooks",
   "use_readout", "aux", "widehead", "widehead_hr", "scale", "shift"]

/-- The primitive operations the forward pass can attempt, in the order
the source attempts them (midas_net.py lines 243-281). -/
inductive Op where
  | contiguous
  | forwardVitOp
  | backboneOp (i : Nat)
  | projOp (i : Nat)
  | refinenetOp (i : Nat)
  | outputConvOp
  | scaleShiftOp
  | auxOp
  | interpolateOp
  | squeezeOp
deriving DecidableEq

/-- The result of a forward pass: one tensor, or the (out, auxout) pair
returned on the auxiliary branch. -/
def FR (α : Type) : Type := Sum α (Prod α α)

/-- The environment of primitive tensor operations the forward pass
invokes.  Each corresponds to one call site in MidasNet.forward and may
fail, as operations of the numerical library may; the pass itself adds no
failure beyond what this structure and the unbound-local case provide. -/
structure Env (α : Type) where
  contiguousF : α → Except PyErr α
  vitF : α → Except PyErr (α × α × α × α)
  backboneF : Nat → α → Except PyErr α
  projF : Nat → α → Except PyErr α
  refinenet4F : α → Except PyErr α
  refinenetF : Nat → α → α → Except PyErr α
  outputConvF : Head → α → Except PyErr α
  affineF : Val → Val → α → Except PyErr α
  auxF : α → Except PyErr α
  interpF : α → α → Except PyErr α
  squeezeF : Nat → α → Except PyErr α

/-- One attempted primitive: the operation label, and its outcome. -/
def prim {α : Type} (op : Op) (r : Except PyErr α) :
    List Op × Except PyErr α := ([op], r)

/-- Sequencing of traced fallible steps: on failure the trace so far and
the error propagate; on success the trace of the continuation is appended. -/
def andThen {β γ : Type} (a : List Op × Except PyErr β)
    (f : β → List Op × Except PyErr γ) : List Op × Except PyErr γ :=
  match a with
  | (t, Except.error e) => (t, Except.error e)
  | (t, Except.ok b) =>
    let r := f b
    (t ++ r.1, r.2)

/-- The four channel projections, midas_net.py lines 257-260, in source
order layer1_rn, layer2_rn, layer3_rn, layer4_rn. -/
def fwdProj {α : Type} (e : Env α) (l1 l2 l3 l4 : α) :
    List Op × Except PyErr (α × α × α × α) :=
  andThen (prim (Op.projOp 1) (e.projF 1 l1)) fun r1 =>
  andThen (prim (Op.projOp 2) (e.projF 2 l2)) fun r2 =>
  andThen (prim (Op.projOp 3) (e.projF 3 l3)) fun r3 =>
  andThen (prim (Op.projOp 4) (e.projF 4 l4)) fun r4 =>
  ([], Except.ok (r1, r2, r3, r4))

/-- The fusion chain, midas_net.py lines 262-265: refinenet4 on the
deepest projection alone, then refinenet3, refinenet2, refinenet1, each
on the previous path output and the matching projection.  Returns
(path_1, path_2): path_2 is also read by the auxiliary branch. -/
def fwdFuse {α : Type} (e : Env α) (r1 r2 r3 r4 : α) :
    List Op × Except PyErr (α × α) :=
  andThen (prim (Op.refinenetOp 4) (e.refinenet4F r4)) fun p4 =>
  andThen (prim (Op.refinenetOp 3) (e.refinenetF 3 p4 r3)) fun p3 =>
  andThen (prim (Op.refinenetOp 2) (e.refinenetF 2 p3 r2)) fun p2 =>
  andThen (prim (Op.refinenetOp 1) (e.refinenetF 1 p2 r1)) fun p1 =>
  ([], Except.ok (p1, p2))

/-- The tail of the forward pass, midas_net.py lines 269-283: the output
head on path_1, the unconditional out * scale + shift, then either the
auxiliary branch (auxlayer on path_2, interpolated to the spatial size of
out, returned as a pair), or in depth mode torch.squeeze(out, dim=1), or
out itself. -/
def fwdHead {α : Type} (e : Env α) (scale shift : Val) (head : Head)
    (hasAux monodepth : Bool) (p1 p2 : α) :
    List Op × Except PyErr (FR α) :=
  andThen (prim Op.outputConvOp (e.outputConvF head p1)) fun o1 =>
  andThen (prim Op.scaleShiftOp (e.affineF scale shift o1)) fun out =>
  if hasAux then
    andThen (prim Op.auxOp (e.auxF p2)) fun a1 =>
    andThen (prim Op.interpolateOp (e.interpF out a1)) fun a2 =>
    ([], Except.ok (Sum.inr (out, a2)))
  else if monodepth then
    andThen (prim Op.squeezeOp (e.squeezeF 1 out)) fun sq =>
    ([], Except.ok (Sum.inl sq))
  else ([], Except.ok (Sum.inl out))

/-- Feature-map extraction, midas_net.py lines 247-255.  The else of the
outer hasattr(self.pretrained, "model") test belongs to the OUTER if, so
when pretrained has a model attribute whose model lacks patch_size,
neither branch assigns layer_1..layer_4 and their first use at line 257
raises an unbound-local NameError. -/
def fwdExtract {α : Type} (e : Env α) (hasModel patch : Bool) (x : α) :
    List Op × Except PyErr (α × α × α × α) :=
  if hasModel then
    if patch then
      andThen (prim Op.forwardVitOp (e.vitF x)) fun q => ([], Except.ok q)
    else ([], Except.error (PyErr.nameError "layer_1"))
  else
    andThen (prim (Op.backboneOp 1) (e.backboneF 1 x)) fun l1 =>
    andThen (prim (Op.backboneOp 2) (e.backboneF 2 l1)) fun l2 =>
    andThen (prim (Op.backboneOp 3) (e.backboneF 3 l2)) fun l3 =>
    andThen (prim (Op.backboneOp 4) (e.backboneF 4 l3)) fun l4 =>
    ([], Except.ok (l1, l2, l3, l4))

/-- MidasNet.forward (midas_net.py lines 234-283) over an abstract
primitive environment: the channels_last branch calls x.contiguous and
DISCARDS its result (line 245), then extraction, the four projections,
the four fusion stages, and the head tail run in source order.  The pair
returned is (operations attempted in order, result or first exception). -/
def fwdCore {α : Type} (m : Model) (e : Env α) (x : α) :
    List Op × Except PyErr (FR α) :=
  let body :=
    andThen (fwdExtract e m.hasModelAttr m.modelHasPatchSize x) fun q =>
    andThen (fwdProj e q.1 q.2.1 q.2.2.1 q.2.2.2) fun r =>
    andThen (fwdFuse e r.1 r.2.1 r.2.2.1 r.2.2.2) fun p =>
    fwdHead e m.scale m.shift m.head m.hasAux m.monodepth p.1 p.2
  if m.channelsLast then
    andThen (prim Op.contiguous (e.contiguousF x)) fun _ => body
  else body

/-- Symbolic tensor expressions: the free algebra of the primitive
operations, used to read off the dataflow graph forward builds.
affine s t a stands for a * s + t (line 271); interpolateTo sz a stands
for F.interpolate(a, size=tuple(sz.shape[2:]), ...) (lines 275-277). -/
inductive Texpr where
  | input
  | contiguousE (a : Texpr)
  | vit (i : Nat) (a : Texpr)
  | backboneLayer (i : Nat) (a : Texpr)
  | proj (i : Nat) (a : Texpr)
  | refinenet4 (a : Texpr)
  | refinenet (i : Nat) (coarse skip : Texpr)
  | outputConv (h : Head) (a : Texpr)
  | affine (scale shift : Val) (a : Texpr)
  | auxlayer (a : Texpr)
  | interpolateTo (sz a : Texpr)
  | squeeze (d : Nat) (a : Texpr)
deriving DecidableEq

/-- The syntactic environment: every primitive succeeds and returns the
corresponding expression node. -/
def symEnv : Env Texpr where
  contiguousF x := Except.ok (Texpr.contiguousE x)
  vitF x := Except.ok (Texpr.vit 1 x, Texpr.vit 2 x, Texpr.vit 3 x, Texpr.vit 4 x)
  backboneF i a := Except.ok (Texpr.backboneLayer i a)
  projF i a := Except.ok (Texpr.proj i a)
  refinenet4F a := Except.ok (Texpr.refinenet4 a)
  refinenetF i c s := Except.ok (Texpr.refinenet i c s)
  outputConvF h a := Except.ok (Texpr.outputConv h a)
  affineF s t a := Except.ok (Texpr.affine s t a)
  auxF a := Except.ok (Texpr.auxlayer a)
  interpF sz a := Except.ok (Texpr.interpolateTo sz a)
  squeezeF d a := Except.ok (Texpr.squeeze d a)

/-- The forward pass on the symbolic input: the trace of operations and
the symbolic result. -/
def forward (m : Model) : List Op × Except PyErr (FR Texpr) :=
  fwdCore m symEnv Texpr.input

/-- The fusion-chain expression over the four extracted feature maps, as
built by midas_net.py lines 257-265. -/
def fusionChain (l1 l2 l3 l4 : Texpr) : Texpr :=
  Texpr.refinenet 1
    (Texpr.refinenet 2
      (Texpr.refinenet 3
        (Texpr.refinenet4 (Texpr.proj 4 l4))
        (Texpr.proj 3 l3))
      (Texpr.proj 2 l2))
    (Texpr.proj 1 l1)

/-- Extracts, from a forward result, the argument fed to the output head
(peeling the squeeze / affine wrappers of any of the three return forms). -/
def headInputOf : Except PyErr (FR Texpr) → Option Texpr
  | Except.ok (Sum.inl (Texpr.squeeze _ (Texpr.affine _ _ (Texpr.outputConv _ p)))) => some p
  | Except.ok (Sum.inl (Texpr.affine _ _ (Texpr.outputConv _ p))) => some p
  | Except.ok (Sum.inr (Texpr.affine _ _ (Texpr.outputConv _ p), _)) => some p
  | _ => none

/-- Tests whether an operation is a projection or fusion stage. -/
def isStageOp : Op → Bool
  | Op.projOp _ => true
  | Op.refinenetOp _ => true
  | _ => false

/-- Tests whether an operation is a feature-extraction step. -/
def isExtractOp : Op → Bool
  | Op.forwardVitOp => true
  | Op.backboneOp _ => true
  | _ => false

/-- An environment is total when every primitive succeeds on every
argument, the situation in which the numerical library raises nothing. -/
def TotalEnv {α : Type} (e : Env α) : Prop :=
  (∀ x, ∃ y, e.contiguousF x = Except.ok y) ∧
  (∀ x, ∃ y, e.vitF x = Except.ok y) ∧
  (∀ i x, ∃ y, e.backboneF i x = Except.ok y) ∧
  (∀ i x, ∃ y, e.projF i x = Except.ok y) ∧
  (∀ x, ∃ y, e.refinenet4F x = Except.ok y) ∧
  (∀ i c s, ∃ y, e.refinenetF i c s = Except.ok y) ∧
  (∀ h x, ∃ y, e.outputConvF h x = Except.ok y) ∧
  (∀ s t x, ∃ y, e.affineF s t x = Except.ok y) ∧
  (∀ x, ∃ y, e.auxF x = Except.ok y) ∧
  (∀ s x, ∃ y, e.interpF s x = Except.ok y) ∧
  (∀ d x, ∃ y, e.squeezeF d x = Except.ok y)

/-- The full operation list of a successful forward pass of model m. -/
def coreOps (m : Model) : List Op :=
  (if m.channelsLast then [Op.contiguous] else []) ++
  (if m.hasModelAttr then [Op.forwardVitOp]
   else [Op.backboneOp 1, Op.backboneOp 2, Op.backboneOp 3, Op.backboneOp 4]) ++
  [Op.projOp 1, Op.projOp 2, Op.projOp 3, Op.projOp 4,
   Op.refinenetOp 4, Op.refinenetOp 3, Op.refinenetOp 2, Op.refinenetOp 1,
   Op.outputConvOp, Op.scaleShiftOp] ++
  (if m.hasAux then [Op.auxOp, Op.interpolateOp]
   else if m.monodepth then [Op.squeezeOp] else [])

/-- Shape of a stride-1 2d convolution with cin input channels, cout
output channels, square kernel k and padding pad, on an NCHW shape:
the standard rule out = h + 2 * pad - k + 1, failing on a rank or
input-channel mismatch or a kernel larger than the padded input. -/
def conv2dShape (cin cout k pad : Nat) : List Nat → Option (List Nat)
  | [n, c, h, w] =>
    if c = cin ∧ k ≤ h + 2 * pad ∧ k ≤ w + 2 * pad then
      some [n, cout, h + 2 * pad + 1 - k, w + 2 * pad + 1 - k]
    else none
  | _ => none

/-- Shape of bilinear interpolation with an integer scale factor. -/
def interpShape (factor : Nat) : List Nat → Option (List Nat)
  | [n, c, h, w] => some [n, c, factor * h, factor * w]
  | _ => none

/-- Shape of an elementwise module (activation, ReLU, Identity, Dropout):
unchanged. -/
def eltwiseShape (s : List Nat) : Option (List Nat) := some s

/-- Shape behaviour of the monodepth output head, midas_net.py lines
148-163: Conv2d(features, features // 2, 3, pad 1), Interpolate(x2),
Conv2d(features // 2, 32, 3, pad 1), the activation, Conv2d(32, 1, 1),
ReLU or Identity, Identity. -/
def depthHeadShape (features : Nat) (s : List Nat) : Option (List Nat) :=
  (conv2dShape features (features / 2) 3 1 s).bind fun s1 =>
  (interpShape 2 s1).bind fun s2 =>
  (conv2dShape (features / 2) 32 3 1 s2).bind fun s3 =>
  (eltwiseShape s3).bind fun s4 =>
  (conv2dShape 32 1 1 0 s4).bind fun s5 =>
  (eltwiseShape s5).bind fun s6 =>
  eltwiseShape s6

/-- Shape of torch.squeeze(t, dim=d): dimension d is removed exactly when
its size is 1, otherwise the shape is unchanged. -/
def squeezeShape (d : Nat) (s : List Nat) : List Nat :=
  match s.get? d with
  | some 1 => s.take d ++ s.drop (d + 1)
  | _ => s

lemma andThen_err {β γ : Type} (t : List Op) (e : PyErr)
    (f : β → List Op × Except PyErr γ) :
    andThen (t, Except.error e) f = (t, Except.error e) := rfl

lemma andThen_ok {β γ : Type} (t : List Op) (b : β)
    (f : β → List Op × Except PyErr γ) :
    andThen (t, Except.ok b) f = (t ++ (f b).1, (f b).2) := rfl

lemma fwdProj_total {α : Type} (e : Env α)
    (hp : ∀ i x, ∃ y, e.projF i x = Except.ok y) (l1 l2 l3 l4 : α) :
    ∃ r1 r2 r3 r4, fwdProj e l1 l2 l3 l4 =
      ([Op.projOp 1, Op.projOp 2, Op.projOp 3, Op.projOp 4],
       Except.ok (r1, r2, r3, r4)) := by
  obtain ⟨r1, h1⟩ := hp 1 l1
  obtain ⟨r2, h2⟩ := hp 2 l2
  obtain ⟨r3, h3⟩ := hp 3 l3
  obtain ⟨r4, h4⟩ := hp 4 l4
  refine ⟨r1, r2, r3, r4, ?_⟩
  simp [fwdProj, prim, h1, h2, h3, h4, andThen_ok]

lemma fwdFuse_total {α : Type} (e : Env α)
    (h4 : ∀ x, ∃ y, e.refinenet4F x = Except.ok y)
    (hr : ∀ i c s, ∃ y, e.refinenetF i c s = Except.ok y)
    (r1 r2 r3 r4 : α) :
    ∃ p1 p2, fwdFuse e r1 r2 r3 r4 =
      ([Op.refinenetOp 4, Op.refinenetOp 3, Op.refinenetOp 2, Op.refinenetOp 1],
       Except.ok (p1, p2)) := by
  obtain ⟨p4, e4⟩ := h4 r4
  obtain ⟨p3, e3⟩ := hr 3 p4 r3
  obtain ⟨p2, e2⟩ := hr 2 p3 r2
  obtain ⟨p1, e1⟩ := hr 1 p2 r1
  refine ⟨p1, p2, ?_⟩
  simp [fwdFuse, prim, e4, e3, e2, e1, andThen_ok]

/-- The operations of the head tail of the pass, by configuration. -/
def tailOps (hasAux monodepth : Bool) : List Op :=
  [Op.outputConvOp, Op.scaleShiftOp] ++
  (if hasAux then [Op.auxOp, Op.interpolateOp]
   else if monodepth then [Op.squeezeOp] else [])

lemma fwdHead_total {α : Type} (e : Env α)
    (ho : ∀ h x, ∃ y, e.outputConvF h x = Except.ok y)
    (ha : ∀ s t x, ∃ y, e.affineF s t x = Except.ok y)
    (hx : ∀ x, ∃ y, e.auxF x = Except.ok y)
    (hi : ∀ s x, ∃ y, e.interpF s x = Except.ok y)
    (hs : ∀ d x, ∃ y, e.squeezeF d x = Except.ok y)
    (scale shift : Val) (head : Head) (hasAux monodepth : Bool) (p1 p2 : α) :
    ∃ r, fwdHead e scale shift head hasAux monodepth p1 p2 =
      (tailOps hasAux monodepth, Except.ok r) := by
  obtain ⟨o1, e1⟩ := ho head p1
  obtain ⟨out, e2⟩ := ha scale shift o1
  cases hasAux with
  | true =>
    obtain ⟨a1, e3⟩ := hx p2
    obtain ⟨a2, e4⟩ := hi out a1
    exact ⟨Sum.inr (out, a2), by
      simp [fwdHead, prim, e1, e2, e3, e4, andThen_ok, tailOps]⟩
  | false =>
    cases monodepth with
    | true =>
      obtain ⟨sq, e3⟩ := hs 1 out
      exact ⟨Sum.inl sq, by
        simp [fwdHead, prim, e1, e2, e3, andThen_ok, tailOps]⟩
    | false =>
      exact ⟨Sum.inl out, by
        simp [fwdHead, prim, e1, e2, andThen_ok, tailOps]⟩

/-- The operations of a successful extraction, by backbone kind. -/
def extractOps (hasModel : Bool) : List Op :=
  if hasModel then [Op.forwardVitOp]
  else [Op.backboneOp 1, Op.backboneOp 2, Op.backboneOp 3, Op.backboneOp 4]

lemma fwdExtract_total {α : Type} (e : Env α)
    (hv : ∀ x, ∃ y, e.vitF x = Except.ok y)
    (hb : ∀ i x, ∃ y, e.backboneF i x = Except.ok y)
    (hasModel patch : Bool) (x : α)
    (hwf : hasModel = false ∨ patch = true) :
    ∃ q, fwdExtract e hasModel patch x = (extractOps hasModel, Except.ok q) := by
  cases hasModel with
  | true =>
    have hp : patch = true := by
      rcases hwf with h | h
      · exact absurd h (by simp)
      · exact h
    subst hp
    obtain ⟨q, hq⟩ := hv x
    exact ⟨q, by simp [fwdExtract, prim, hq, andThen_ok, extractOps]⟩
  | false =>
    obtain ⟨l1, e1⟩ := hb 1 x
    obtain ⟨l2, e2⟩ := hb 2 l1
    obtain ⟨l3, e3⟩ := hb 3 l2
    obtain ⟨l4, e4⟩ := hb 4 l3
    exact ⟨(l1, l2, l3, l4), by
      simp [fwdExtract, prim, e1, e2, e3, e4, andThen_ok, extractOps]⟩

lemma fwdCore_total {α : Type} (m : Model) (e : Env α) (x : α)
    (hT : TotalEnv e)
    (hwf : m.hasModelAttr = false ∨ m.modelHasPatchSize = true) :
    ∃ r, fwdCore m e x = (coreOps m, Except.ok r) := by
  obtain ⟨hc, hv, hb, hp, h4, hr, ho, ha, hx, hi, hs⟩ := hT
  obtain ⟨q, hq⟩ := fwdExtract_total e hv hb m.hasModelAttr m.modelHasPatchSize x hwf
  obtain ⟨r1, r2, r3, r4, hpr⟩ := hp |> fun hp => fwdProj_total e hp q.1 q.2.1 q.2.2.1 q.2.2.2
  obtain ⟨p1, p2, hfu⟩ := fwdFuse_total e h4 hr r1 r2 r3 r4
  obtain ⟨res, hhd⟩ := fwdHead_total e ho ha hx hi hs m.scale m.shift m.head m.hasAux m.monodepth p1 p2
  have hbody :
      (andThen (fwdExtract e m.hasModelAttr m.modelHasPatchSize x) fun q =>
        andThen (fwdProj e q.1 q.2.1 q.2.2.1 q.2.2.2) fun r =>
        andThen (fwdFuse e r.1 r.2.1 r.2.2.1 r.2.2.2) fun p =>
        fwdHead e m.scale m.shift m.head m.hasAux m.monodepth p.1 p.2) =
      (extractOps m.hasModelAttr ++
        ([Op.projOp 1, Op.projOp 2, Op.projOp 3, Op.projOp 4] ++
          ([Op.refinenetOp 4, Op.refinenetOp 3, Op.refinenetOp 2, Op.refinenetOp 1] ++
            tailOps m.hasAux m.monodepth)),
       Except.ok res) := by
    rw [hq, andThen_ok, hpr, andThen_ok, hfu, andThen_ok, hhd]
  cases hcl : m.channelsLast with
  | true =>
    obtain ⟨y, hy⟩ := hc x
    refine ⟨res, ?_⟩
    simp only [fwdCore, hcl, if_true, prim, hy, andThen_ok, hbody, coreOps, extractOps, tailOps]
    simp
  | false =>
    refine ⟨res, ?_⟩
    simp only [fwdCore, hcl, if_false, hbody, coreOps, extractOps, tailOps]
    simp

lemma fwdCore_unbound {α : Type} (m : Model) (e : Env α) (x : α)
    (hc : ∀ x, ∃ y, e.contiguousF x = Except.ok y)
    (h1 : m.hasModelAttr = true) (h2 : m.modelHasPatchSize = false) :
    fwdCore m e x =
      ((if m.channelsLast then [Op.contiguous] else []),
       Except.error (PyErr.nameError "layer_1")) := by
  have hext : fwdExtract e m.hasModelAttr m.modelHasPatchSize x =
      ([], Except.error (PyErr.nameError "layer_1")) := by
    simp [fwdExtract, h1, h2]
  cases hcl : m.channelsLast with
  | true =>
    obtain ⟨y, hy⟩ := hc x
    simp [fwdCore, hcl, prim, hy, andThen_ok, hext, andThen_err]
  | false =>
    simp [fwdCore, hcl, hext, andThen_err]

/-- A backbone encoder with neither a model attribute nor patch_size:
the named-attribute (layer1..layer4) family. -/
def bk0 : Backbone := { hasModelAttr := false, modelHasPatchSize := false }

/-- C4 (code bug): constructing with blocks mapping aux to True does not
succeed: the auxiliary branch of __init__ (midas_net.py lines 210-217)
references the undefined name features2, so construction raises
NameError instead of installing the auxiliary head the specification
describes.  Evaluated here at depth mode with otherwise default
arguments and the single entry aux = True. -/
theorem c4_aux_nameerror :
    construct bk0 256 150 true true false [("aux", Val.bool true)] =
      Except.error (PyErr.nameError "features2") := rfl

/-- C3 (counterexample): construction does NOT succeed for every
configuration with the named keys absent: in segmentation mode
(monodepth = False) with an empty blocks mapping, the unguarded read of
blocks["widehead"] at midas_net.py line 165 raises KeyError. -/
theorem c3_counterexample :
    construct bk0 256 150 false true false [] =
      Except.error (PyErr.keyError "widehead") := rfl

/-- A model whose pretrained encoder has a model attribute but whose
model lacks patch_size, while the encoder still offers the
layer1..layer4 attributes (the symbolic environment supplies them). -/
def mFallthrough : Model :=
  { channelsLast := false, monodepth := true, features := 256,
    numClasses := 150, nonNegative := true, bn := false, freezeBn := true,
    hooks := none, useReadout := Val.str "ignore", scale := Val.num 1,
    shift := Val.num 0, activation := Act.relu, head := Head.depth,
    hasAux := false, hasModelAttr := true, modelHasPatchSize := false }

/-- C5 (counterexample): a backbone that supplies the four feature maps
through the named attributes layer1..layer4 but whose pretrained object
also has a model attribute without patch_size takes NEITHER extraction
path: the else at midas_net.py line 251 belongs to the outer hasattr
test, so layer_1..layer_4 are never assigned and the pass fails with the
unbound-local NameError on layer_1, refuting that every backbone
satisfying the four-feature-map contract gets all four maps bound. -/
theorem c5_counterexample :
    forward mFallthrough =
      ([], Except.error (PyErr.nameError "layer_1")) := rfl

/-- C6: in segmentation mode, when head selection reaches the
widehead_hr option (the activation chain succeeded and widehead is
present but not True) and the widehead_hr key is absent, construction
fails precisely with the missing-key lookup error KeyError "widehead_hr"
(midas_net.py line 177), not any other error and not a default head. -/
theorem c6_widehead_hr_keyerror (bk : Backbone) (features numClasses : Nat)
    (nonNegative channelsLast : Bool) (blocks : Blocks) (a : Act) (v : Val)
    (hact : selectActivation blocks = Except.ok a)
    (hw : lookupB blocks "widehead" = some v)
    (hv : pyEq v (Val.bool true) = false)
    (hhr : lookupB blocks "widehead_hr" = none) :
    construct bk features numClasses false nonNegative channelsLast blocks =
      Except.error (PyErr.keyError "widehead_hr") := by
  simp [construct, hact, selectHead, hw, hv, hhr]

/-- C6 witness: with blocks = {widehead: False} in segmentation mode,
construction fails with KeyError "widehead_hr". -/
theorem c6_widehead_hr_keyerror_witness :
    construct bk0 256 150 false true false [("widehead", Val.bool false)] =
      Except.error (PyErr.keyError "widehead_hr") :=
  c6_widehead_hr_keyerror bk0 256 150 true false
    [("widehead", Val.bool false)] Act.identity (Val.bool false)
    rfl rfl rfl rfl

/-- C9: blocks["activation"] equal to "mish" or "hard_mish" makes the
activation chain evaluate the undefined names Mish / HardMish, a
NameError that construction propagates; any other value that is not
"leaky" and not "relu" under Python equality, and likewise an absent
activation key, silently selects the identity activation. -/
theorem c9_activation_selection (blocks : Blocks) :
    (lookupB blocks "activation" = some (Val.str "mish") →
      selectActivation blocks = Except.error (PyErr.nameError "Mish")) ∧
    (lookupB blocks "activation" = some (Val.str "hard_mish") →
      selectActivation blocks = Except.error (PyErr.nameError "HardMish")) ∧
    (∀ v, lookupB blocks "activation" = some v →
      pyEq v (Val.str "mish") = false → pyEq v (Val.str "hard_mish") = false →
      pyEq v (Val.str "leaky") = false → pyEq v (Val.str "relu") = false →
      selectActivation blocks = Except.ok Act.identity) ∧
    (lookupB blocks "activation" = none →
      selectActivation blocks = Except.ok Act.identity) ∧
    (∀ bk features numClasses monodepth nonNegative channelsLast err,
      selectActivation blocks = Except.error err →
      construct bk features numClasses monodepth nonNegative channelsLast blocks =
        Except.error err) := by
  refine ⟨?_, ?_, ?_, ?_, ?_⟩
  · intro h
    simp only [selectActivation, h]
    rfl
  · intro h
    simp only [selectActivation, h]
    rfl
  · intro v h h1 h2 h3 h4
    simp [selectActivation, h, h1, h2, h3, h4]
  · intro h
    simp only [selectActivation, h]
    rfl
  · intro bk features numClasses monodepth nonNegative channelsLast err h
    simp [construct, h]

/-- C9 witness: with blocks = {activation: "mish"}, construction fails
with NameError "Mish". -/
theorem c9_activation_selection_witness :
    construct bk0 256 150 true true false [("activation", Val.str "mish")] =
      Except.error (PyErr.nameError "Mish") :=
  (c9_activation_selection [("activation", Val.str "mish")]).2.2.2.2
    bk0 256 150 true true false (PyErr.nameError "Mish")
    ((c9_activation_selection [("activation", Val.str "mish")]).1 rfl)

/-- Whether an Except value is a success. -/
def isOkE {ε α : Type} : Except ε α → Bool
  | Except.ok _ => true
  | Except.error _ => false

/-- layer_1 of the named-attribute backbone path (line 252). -/
def bbE1 : Texpr := Texpr.backboneLayer 1 Texpr.input

/-- layer_2 of the named-attribute backbone path (line 253). -/
def bbE2 : Texpr := Texpr.backboneLayer 2 bbE1

/-- layer_3 of the named-attribute backbone path (line 254). -/
def bbE3 : Texpr := Texpr.backboneLayer 3 bbE2

/-- layer_4 of the named-attribute backbone path (line 255). -/
def bbE4 : Texpr := Texpr.backboneLayer 4 bbE3

/-- The four extracted feature-map expressions, by backbone kind (on the
successful extraction paths). -/
def extractionExprs (hasModel : Bool) : Texpr × Texpr × Texpr × Texpr :=
  if hasModel then
    (Texpr.vit 1 Texpr.input, Texpr.vit 2 Texpr.input,
     Texpr.vit 3 Texpr.input, Texpr.vit 4 Texpr.input)
  else (bbE1, bbE2, bbE3, bbE4)

/-- The path_2 expression (output of refinenet2) over the extracted maps. -/
def path2Chain (l2 l3 l4 : Texpr) : Texpr :=
  Texpr.refinenet 2
    (Texpr.refinenet 3
      (Texpr.refinenet4 (Texpr.proj 4 l4))
      (Texpr.proj 3 l3))
    (Texpr.proj 2 l2)

/-- The symbolic result a well-formed forward pass produces, read off the
straight-line source: the head applied to path_1, the affine
out * scale + shift, then the auxiliary pair, the depth squeeze, or the
plain output. -/
def expectedResult (m : Model) : Except PyErr (FR Texpr) :=
  let q := extractionExprs m.hasModelAttr
  let p1 := fusionChain q.1 q.2.1 q.2.2.1 q.2.2.2
  let p2 := path2Chain q.2.1 q.2.2.1 q.2.2.2
  let out := Texpr.affine m.scale m.shift (Texpr.outputConv m.head p1)
  if m.hasAux then
    Except.ok (Sum.inr (out, Texpr.interpolateTo out (Texpr.auxlayer p2)))
  else if m.monodepth then Except.ok (Sum.inl (Texpr.squeeze 1 out))
  else Except.ok (Sum.inl out)

lemma forward_wf (m : Model)
    (hwf : m.hasModelAttr = false ∨ m.modelHasPatchSize = true) :
    forward m = (coreOps m, expectedResult m) := by
  obtain ⟨cl, md, ft, nc, nn, bn, fb, hk, ur, sc, sh, ac, hd, ax, hm, pa⟩ := m
  change hm = false ∨ pa = true at hwf
  rcases hwf with h | h
  · subst h
    cases cl <;> cases ax <;> cases md <;> rfl
  · subst h
    cases hm <;> cases cl <;> cases ax <;> cases md <;> rfl

lemma construct_ok_inv (bk : Backbone) (features numClasses : Nat)
    (monodepth nonNegative channelsLast : Bool) (blocks : Blocks) (m : Model)
    (h : construct bk features numClasses monodepth nonNegative channelsLast
      blocks = Except.ok m) :
    selectActivation blocks = Except.ok m.activation ∧
    selectHead monodepth blocks = Except.ok m.head ∧
    auxEnabled blocks = false ∧
    m.channelsLast = channelsLast ∧ m.monodepth = monodepth ∧
    m.features = features ∧ m.numClasses = numClasses ∧
    m.nonNegative = nonNegative ∧
    m.bn = (match lookupB blocks "batch_norm" with
            | Option.some v => pyEq v (Val.bool true)
            | Option.none => false) ∧
    m.freezeBn = (match lookupB blocks "freeze_bn" with
                  | Option.some v => !(pyEq v (Val.bool false))
                  | Option.none => true) ∧
    m.hooks = lookupB blocks "hooks" ∧
    m.useReadout = (lookupB blocks "use_readout").getD (Val.str "ignore") ∧
    m.scale = (lookupB blocks "scale").getD (Val.num 1) ∧
    m.shift = (lookupB blocks "shift").getD (Val.num 0) ∧
    m.hasAux = false ∧
    m.hasModelAttr = bk.hasModelAttr ∧
    m.modelHasPatchSize = bk.modelHasPatchSize := by
  cases hact : selectActivation blocks with
  | error e => simp [construct, hact] at h
  | ok a =>
    cases hhd : selectHead monodepth blocks with
    | error e => simp [construct, hact, hhd] at h
    | ok hd =>
      cases haux : auxEnabled blocks with
      | true => simp [construct, hact, hhd, haux] at h
      | false =>
        simp only [construct, hact, hhd, haux, Bool.false_eq_true,
          if_false, Except.ok.injEq] at h
        subst h
        exact ⟨rfl, rfl, rfl, rfl, rfl, rfl, rfl, rfl, rfl, rfl, rfl,
          rfl, rfl, rfl, rfl, rfl, rfl⟩

/-- The model produced by construct bk0 256 150 true true false []:
depth mode, defaults everywhere. -/
def mW : Model :=
  { channelsLast := false, monodepth := true, features := 256,
    numClasses := 150, nonNegative := true, bn := false, freezeBn := true,
    hooks := none, useReadout := Val.str "ignore", scale := Val.num 1,
    shift := Val.num 0, activation := Act.identity, head := Head.depth,
    hasAux := false, hasModelAttr := false, modelHasPatchSize := false }

/-- C2: in every forward pass that extracts its feature maps, the
projection and fusion stages occur in the trace exactly as the four
projections (layers 1..4, in order) followed by the four fusion stages
(4 down to 1), with nothing of either kind elsewhere; and the value fed
to the output head is the strict top-down chain in which refinenet4
consumes only the projected deepest feature and each refinenet i
consumes the previous fusion output together with the projected layer-i
feature. -/
theorem c2_projection_fusion_order (m : Model)
    (hwf : m.hasModelAttr = false ∨ m.modelHasPatchSize = true) :
    (forward m).1.filter isStageOp =
      [Op.projOp 1, Op.projOp 2, Op.projOp 3, Op.projOp 4,
       Op.refinenetOp 4, Op.refinenetOp 3, Op.refinenetOp 2,
       Op.refinenetOp 1] ∧
    (∃ l1 l2 l3 l4,
      headInputOf (forward m).2 = some (fusionChain l1 l2 l3 l4)) := by
  obtain ⟨cl, md, ft, nc, nn, bn, fb, hk, ur, sc, sh, ac, hd, ax, hm, pa⟩ := m
  change hm = false ∨ pa = true at hwf
  rw [forward_wf _ hwf]
  constructor
  · cases cl <;> cases hm <;> cases ax <;> cases md <;> rfl
  · cases hm <;> cases ax <;> cases md <;> exact ⟨_, _, _, _, rfl⟩

/-- C2 witness: for the default depth model with a named-attribute
backbone, the stage operations of the trace are the four projections then
the four fusions. -/
theorem c2_projection_fusion_order_witness :
    (forward mW).1.filter isStageOp =
      [Op.projOp 1, Op.projOp 2, Op.projOp 3, Op.projOp 4,
       Op.refinenetOp 4, Op.refinenetOp 3, Op.refinenetOp 2,
       Op.refinenetOp 1] :=
  (c2_projection_fusion_order mW (Or.inl rfl)).1

/-- C10: the affine transform out * scale + shift is applied to the main
output-head result on every return path of forward — the auxiliary pair,
depth mode, and segmentation mode — while the auxiliary output itself is
interpolation of auxlayer(path_2) with no scale or shift applied to it. -/
theorem c10_affine_all_modes (m : Model)
    (hwf : m.hasModelAttr = false ∨ m.modelHasPatchSize = true) :
    (m.hasAux = true → ∃ p1 p2,
      (forward m).2 = Except.ok (Sum.inr
        (Texpr.affine m.scale m.shift (Texpr.outputConv m.head p1),
         Texpr.interpolateTo
           (Texpr.affine m.scale m.shift (Texpr.outputConv m.head p1))
           (Texpr.auxlayer p2)))) ∧
    (m.hasAux = false → m.monodepth = true → ∃ p1,
      (forward m).2 = Except.ok (Sum.inl (Texpr.squeeze 1
        (Texpr.affine m.scale m.shift (Texpr.outputConv m.head p1))))) ∧
    (m.hasAux = false → m.monodepth = false → ∃ p1,
      (forward m).2 = Except.ok (Sum.inl
        (Texpr.affine m.scale m.shift (Texpr.outputConv m.head p1)))) := by
  obtain ⟨cl, md, ft, nc, nn, bn, fb, hk, ur, sc, sh, ac, hd, ax, hm, pa⟩ := m
  change hm = false ∨ pa = true at hwf
  rw [forward_wf _ hwf]
  refine ⟨?_, ?_, ?_⟩
  · intro hax
    change ax = true at hax
    subst hax
    exact ⟨_, _, rfl⟩
  · intro hax hmd
    change ax = false at hax
    change md = true at hmd
    subst hax
    subst hmd
    exact ⟨_, rfl⟩
  · intro hax hmd
    change ax = false at hax
    change md = false at hmd
    subst hax
    subst hmd
    exact ⟨_, rfl⟩

/-- The default depth model, with an auxiliary layer and a nontrivial
scale and shift. -/
def mWAux : Model :=
  { mW with hasAux := true, scale := Val.num 2, shift := Val.num 3 }

/-- C10 witness: a depth-mode model owning an auxiliary layer returns
successfully through the auxiliary pair path. -/
theorem c10_affine_all_modes_witness :
    isOkE (forward mWAux).2 = true := by
  obtain ⟨p1, p2, hp⟩ := (c10_affine_all_modes mWAux (Or.inl rfl)).1 rfl
  rw [hp]
  rfl

/-- C5 (amended): extraction dispatches on the two hasattr tests, not on
the four-feature-map contract: with a model attribute carrying
patch_size the hook path (forward_vit) alone runs; with no model
attribute the four named layer attributes alone run; and in both cases
all four maps are bound and reach the projections as the fusion chain
input.  But with a model attribute lacking patch_size neither path runs
and forward fails with the unbound-local NameError on layer_1, even when
the backbone also offers the named attributes. -/
theorem c5_backbone_dispatch (m : Model) :
    (m.hasModelAttr = true → m.modelHasPatchSize = true →
      (forward m).1.filter isExtractOp = [Op.forwardVitOp] ∧
      headInputOf (forward m).2 = some (fusionChain
        (Texpr.vit 1 Texpr.input) (Texpr.vit 2 Texpr.input)
        (Texpr.vit 3 Texpr.input) (Texpr.vit 4 Texpr.input))) ∧
    (m.hasModelAttr = false →
      (forward m).1.filter isExtractOp =
        [Op.backboneOp 1, Op.backboneOp 2, Op.backboneOp 3,
         Op.backboneOp 4] ∧
      headInputOf (forward m).2 = some (fusionChain bbE1 bbE2 bbE3 bbE4)) ∧
    (m.hasModelAttr = true → m.modelHasPatchSize = false →
      (forward m).2 = Except.error (PyErr.nameError "layer_1")) := by
  obtain ⟨cl, md, ft, nc, nn, bn, fb, hk, ur, sc, sh, ac, hd, ax, hm, pa⟩ := m
  refine ⟨?_, ?_, ?_⟩
  · intro h1 h2
    change hm = true at h1
    change pa = true at h2
    subst h1
    subst h2
    rw [forward_wf _ (Or.inr rfl)]
    constructor
    · cases cl <;> cases ax <;> cases md <;> rfl
    · cases ax <;> cases md <;> rfl
  · intro h1
    change hm = false at h1
    subst h1
    rw [forward_wf _ (Or.inl rfl)]
    constructor
    · cases cl <;> cases ax <;> cases md <;> rfl
    · cases ax <;> cases md <;> rfl
  · intro h1 h2
    change hm = true at h1
    change pa = false at h2
    subst h1
    subst h2
    cases cl <;> rfl

/-- The default depth model over a hook-protocol (vit) backbone. -/
def mWVit : Model :=
  { mW with hasModelAttr := true, modelHasPatchSize := true }

/-- C5 amended witness: a backbone whose model attribute carries
patch_size extracts through forward_vit alone. -/
theorem c5_backbone_dispatch_witness :
    (forward mWVit).1.filter isExtractOp = [Op.forwardVitOp] :=
  ((c5_backbone_dispatch mWVit).1 rfl rfl).1

/-- C1: any model constructed in depth mode (monodepth = True) whose
backbone extraction is well-formed returns, for every input, the single
output squeeze(out * scale + shift, dim 1) with out the result of the
depth head; and the depth head maps an NCHW shape [n, features, h, w] to
[n, 1, 2h, 2w], whose dimension-1 axis (of size one) the squeeze removes,
giving the three-dimensional [n, 2h, 2w] with the batch axis intact. -/
lemma conv2dShape_eq (cin cout k pad n c h w : ℕ) (hc : c = cin)
    (h1 : k ≤ h + 2 * pad) (h2 : k ≤ w + 2 * pad) :
    conv2dShape cin cout k pad [n, c, h, w] =
      some [n, cout, h + 2 * pad + 1 - k, w + 2 * pad + 1 - k] := by
  simp only [conv2dShape]
  rw [if_pos ⟨hc, h1, h2⟩]

theorem c1_depth_output (bk : Backbone) (features numClasses : Nat)
    (nonNegative channelsLast : Bool) (blocks : Blocks) (m : Model)
    (hc : construct bk features numClasses true nonNegative channelsLast
      blocks = Except.ok m)
    (hwf : m.hasModelAttr = false ∨ m.modelHasPatchSize = true) :
    (∃ p1, (forward m).2 = Except.ok (Sum.inl (Texpr.squeeze 1
      (Texpr.affine m.scale m.shift (Texpr.outputConv Head.depth p1))))) ∧
    (∀ n h w, 1 ≤ h → 1 ≤ w →
      depthHeadShape features [n, features, h, w] =
        some [n, 1, 2 * h, 2 * w] ∧
      squeezeShape 1 [n, 1, 2 * h, 2 * w] = [n, 2 * h, 2 * w]) := by
  obtain ⟨hact, hhd, haux, hcl, hmd, hft, hnc, hnn, hbn, hfb, hhk, hur,
    hsc, hsh, hax, hbm, hbp⟩ :=
    construct_ok_inv _ _ _ _ _ _ _ _ hc
  constructor
  · have hhead : m.head = Head.depth := by
      have h2 : Except.ok m.head = Except.ok Head.depth :=
        hhd.symm.trans rfl
      exact Except.ok.inj h2
    rw [forward_wf m hwf]
    simp only [expectedResult, hax, hmd, hhead, Bool.false_eq_true,
      if_false, if_true]
    exact ⟨_, rfl⟩
  · intro n h w hh hw
    have e1 : conv2dShape features (features / 2) 3 1 [n, features, h, w] =
        some [n, features / 2, h, w] := by
      rw [conv2dShape_eq features (features / 2) 3 1 n features h w rfl
        (by omega) (by omega),
        show h + 2 * 1 + 1 - 3 = h from by omega,
        show w + 2 * 1 + 1 - 3 = w from by omega]
    have e2 : interpShape 2 [n, features / 2, h, w] =
        some [n, features / 2, 2 * h, 2 * w] := by
      simp [interpShape]
    have e3 : conv2dShape (features / 2) 32 3 1
        [n, features / 2, 2 * h, 2 * w] = some [n, 32, 2 * h, 2 * w] := by
      rw [conv2dShape_eq (features / 2) 32 3 1 n (features / 2) (2 * h)
        (2 * w) rfl (by omega) (by omega),
        show 2 * h + 2 * 1 + 1 - 3 = 2 * h from by omega,
        show 2 * w + 2 * 1 + 1 - 3 = 2 * w from by omega]
    have e4 : conv2dShape 32 1 1 0 [n, 32, 2 * h, 2 * w] =
        some [n, 1, 2 * h, 2 * w] := by
      rw [conv2dShape_eq 32 1 1 0 n 32 (2 * h) (2 * w) rfl
        (by omega) (by omega),
        show 2 * h + 2 * 0 + 1 - 1 = 2 * h from by omega,
        show 2 * w + 2 * 0 + 1 - 1 = 2 * w from by omega]
    refine ⟨?_, rfl⟩
    simp [depthHeadShape, e1, e2, e3, e4, eltwiseShape]

/-- C1 witness: for the default depth-mode construction with features
256, input head shape [2, 256, 3, 5] maps to [2, 1, 6, 10] and the
squeeze removes the singleton channel axis. -/
theorem c1_depth_output_witness :
    depthHeadShape 256 [2, 256, 3, 5] = some [2, 1, 2 * 3, 2 * 5] ∧
    squeezeShape 1 [2, 1, 2 * 3, 2 * 5] = [2, 2 * 3, 2 * 5] :=
  (c1_depth_output bk0 256 150 true false [] mW rfl (Or.inl rfl)).2
    2 3 5 (by decide) (by decide)

/-- C3 (amended): in depth mode, construction succeeds for every blocks
mapping whose activation chain succeeds and whose aux key is not set to
a True-equal value, with every absent key taking its coded default
(scale 1.0, shift 0.0, batch_norm off, freeze_bn on, hooks None,
use_readout "ignore", identity activation), and never an auxiliary head;
and in every mode the constructed result depends on the blocks mapping
only through the listed configuration keys, so keys outside the list
have no effect.  (In segmentation mode widehead, and widehead_hr when
widehead is not True, are required: see the counterexample.) -/
theorem c3_optional_keys :
    (∀ (bk : Backbone) (features numClasses : Nat)
      (nonNegative channelsLast : Bool) (blocks : Blocks) (a : Act),
      selectActivation blocks = Except.ok a → auxEnabled blocks = false →
      ∃ m, construct bk features numClasses true nonNegative channelsLast
          blocks = Except.ok m ∧
        (lookupB blocks "scale" = none → m.scale = Val.num 1) ∧
        (lookupB blocks "shift" = none → m.shift = Val.num 0) ∧
        (lookupB blocks "batch_norm" = none → m.bn = false) ∧
        (lookupB blocks "freeze_bn" = none → m.freezeBn = true) ∧
        (lookupB blocks "hooks" = none → m.hooks = none) ∧
        (lookupB blocks "use_readout" = none →
          m.useReadout = Val.str "ignore") ∧
        (lookupB blocks "activation" = none →
          m.activation = Act.identity) ∧
        m.hasAux = false) ∧
    (∀ (bk : Backbone) (features numClasses : Nat)
      (monodepth nonNegative channelsLast : Bool) (b1 b2 : Blocks),
      (∀ k, k ∈ usedKeys → lookupB b1 k = lookupB b2 k) →
      construct bk features numClasses monodepth nonNegative channelsLast
          b1 =
        construct bk features numClasses monodepth nonNegative channelsLast
          b2) := by
  constructor
  · intro bk features numClasses nonNegative channelsLast blocks a hact haux
    cases hcon : construct bk features numClasses true nonNegative
        channelsLast blocks with
    | error e =>
      exfalso
      simp [construct, hact, selectHead, haux] at hcon
    | ok m =>
      obtain ⟨h1, h2, h3, h4, h5, h6, h7, h8, hbn, hfb, hhk, hur, hsc,
        hsh, hax, hbm, hbp⟩ := construct_ok_inv _ _ _ _ _ _ _ _ hcon
      refine ⟨m, rfl, ?_, ?_, ?_, ?_, ?_, ?_, ?_, hax⟩
      · intro hn
        rw [hsc, hn]
        rfl
      · intro hn
        rw [hsh, hn]
        rfl
      · intro hn
        rw [hbn, hn]
      · intro hn
        rw [hfb, hn]
      · intro hn
        rw [hhk, hn]
      · intro hn
        rw [hur, hn]
        rfl
      · intro hn
        have h9 : (Except.ok m.activation : Except PyErr Act) =
            Except.ok Act.identity := by
          rw [← h1]
          simp only [selectActivation, hn]
          rfl
        exact Except.ok.inj h9
  · intro bk features numClasses monodepth nonNegative channelsLast b1 b2 h
    have ha := h "activation" (by decide)
    have hbn := h "batch_norm" (by decide)
    have hfb := h "freeze_bn" (by decide)
    have hhk := h "hooks" (by decide)
    have hur := h "use_readout" (by decide)
    have hax := h "aux" (by decide)
    have hwh := h "widehead" (by decide)
    have hwr := h "widehead_hr" (by decide)
    have hsc := h "scale" (by decide)
    have hsh := h "shift" (by decide)
    simp only [construct, selectActivation, selectHead, auxEnabled,
      ha, hbn, hfb, hhk, hur, hax, hwh, hwr, hsc, hsh]

/-- C3 amended witness: keys outside the configuration list are inert,
and the all-defaults depth-mode construction succeeds. -/
theorem c3_optional_keys_witness :
    construct bk0 256 150 true true false [] =
      construct bk0 256 150 true true false [("unrelated", Val.num 7)] ∧
    isOkE (construct bk0 256 150 true true false []) = true := by
  constructor
  · exact c3_optional_keys.2 bk0 256 150 true true false []
      [("unrelated", Val.num 7)] (by decide)
  · obtain ⟨m, hm, _⟩ := c3_optional_keys.1 bk0 256 150 true false []
      Act.identity rfl rfl
    rw [hm]
    rfl

/-- The primitive environment on the unit tensor type, all primitives
total. -/
def unitEnv : Env Unit where
  contiguousF _ := Except.ok ()
  vitF _ := Except.ok ((), (), (), ())
  backboneF _ _ := Except.ok ()
  projF _ _ := Except.ok ()
  refinenet4F _ := Except.ok ()
  refinenetF _ _ _ := Except.ok ()
  outputConvF _ _ := Except.ok ()
  affineF _ _ _ := Except.ok ()
  auxF _ := Except.ok ()
  interpF _ _ := Except.ok ()
  squeezeF _ _ := Except.ok ()

lemma unitEnv_total : TotalEnv unitEnv :=
  ⟨fun _ => ⟨(), rfl⟩, fun _ => ⟨((), (), (), ()), rfl⟩,
   fun _ _ => ⟨(), rfl⟩, fun _ _ => ⟨(), rfl⟩, fun _ => ⟨(), rfl⟩,
   fun _ _ _ => ⟨(), rfl⟩, fun _ _ => ⟨(), rfl⟩, fun _ _ _ => ⟨(), rfl⟩,
   fun _ => ⟨(), rfl⟩, fun _ _ => ⟨(), rfl⟩, fun _ _ => ⟨(), rfl⟩⟩

/-- C7: over any environment whose primitives never fail, the forward
pass runs the same operations in the same order for every input — it
never branches on, validates, or inspects the input — and it raises
nothing of its own: it succeeds whenever extraction is well-formed, and
the one failure it owns (the unbound-local NameError of the dangling
extraction branch) is decided by the backbone attributes, not by the
input. -/
theorem c7_no_input_validation {α : Type} (m : Model) (e : Env α)
    (x x2 : α) (hT : TotalEnv e) :
    (fwdCore m e x).1 = (fwdCore m e x2).1 ∧
    (m.hasModelAttr = false ∨ m.modelHasPatchSize = true →
      ∃ r, (fwdCore m e x).2 = Except.ok r) ∧
    (m.hasModelAttr = true → m.modelHasPatchSize = false →
      (fwdCore m e x).2 = Except.error (PyErr.nameError "layer_1")) := by
  refine ⟨?_, ?_, ?_⟩
  · by_cases hm : m.hasModelAttr = true
    · by_cases hp : m.modelHasPatchSize = false
      · rw [fwdCore_unbound m e x hT.1 hm hp,
          fwdCore_unbound m e x2 hT.1 hm hp]
      · have hwf : m.hasModelAttr = false ∨ m.modelHasPatchSize = true :=
          Or.inr (by revert hp; cases m.modelHasPatchSize <;> simp)
        obtain ⟨r, hr⟩ := fwdCore_total m e x hT hwf
        obtain ⟨r2, hr2⟩ := fwdCore_total m e x2 hT hwf
        rw [hr, hr2]
    · have hwf : m.hasModelAttr = false ∨ m.modelHasPatchSize = true :=
        Or.inl (by revert hm; cases m.hasModelAttr <;> simp)
      obtain ⟨r, hr⟩ := fwdCore_total m e x hT hwf
      obtain ⟨r2, hr2⟩ := fwdCore_total m e x2 hT hwf
      rw [hr, hr2]
  · intro hwf
    obtain ⟨r, hr⟩ := fwdCore_total m e x hT hwf
    exact ⟨r, by rw [hr]⟩
  · intro h1 h2
    rw [fwdCore_unbound m e x hT.1 h1 h2]

/-- C7 witness: on the unit environment the pass of the default model
succeeds, with all hypotheses discharged concretely. -/
theorem c7_no_input_validation_witness :
    isOkE (fwdCore mW unitEnv ()).2 = true := by
  obtain ⟨r, hr⟩ :=
    (c7_no_input_validation mW unitEnv () () unitEnv_total).2.1
      (Or.inl rfl)
  rw [hr]
  rfl

/-- C8: the channels_last flag never influences the computed output: the
memory-format conversion result at midas_net.py line 245 is discarded,
so whenever the conversion returns at all, the pass computes the same
result with the flag on as with it off (only the operation trace gains
the conversion step). -/
theorem c8_channels_last_irrelevant {α : Type} (m : Model) (e : Env α)
    (x y : α) (hy : e.contiguousF x = Except.ok y) :
    (fwdCore { m with channelsLast := true } e x).2 =
      (fwdCore { m with channelsLast := false } e x).2 := by
  obtain ⟨cl, md, ft, nc, nn, bn, fb, hk, ur, sc, sh, ac, hd, ax, hm, pa⟩ := m
  simp only [fwdCore, prim, hy, andThen_ok]
  simp

/-- C8 witness: on the unit environment, the default model computes the
same result with channels_last on and off. -/
theorem c8_channels_last_irrelevant_witness :
    (fwdCore { mW with channelsLast := true } unitEnv ()).2 =
      (fwdCore { mW with channelsLast := false } unitEnv ()).2 :=
  c8_channels_last_irrelevant mW unitEnv () () rfl

end MidasNet
